import Mathlib

/-!
# Verification of the WhatsApp-Bot routing core

Shallow embedding of the routing/state-machine subsystem of the
`Whatsapp-Bot` repository, together with theorems settling the frozen
claims about it.  The embedding follows the Python sources:

* `app/services/intent_engine.py`   — keyword-scoring intent detection
* `app/services/flow_manager.py`    — assisted-mode flow state machine
* `app/services/message_router.py`  — webhook routing and persistence
* `app/services/human_support_service.py` — agent queueing and commands

Conventions of the embedding:
* UUIDs are modelled as `Nat`; the payload carries them as decimal
  strings parsed with `String.toNat?` (standing in for `UUID(str(v))`).
* Timestamps are `Nat` ticks (`Db.clock` plays `now()`).
* The database is a record of lists of rows; SQL `SELECT ... LIMIT 1`
  with an `ORDER BY` is a fold picking the extremal row; the partial
  unique indexes of the schema become explicit conflict checks on
  insert.  Row updates are by-id maps (primary keys are unique).
* Python dict payloads become association lists with string/bool
  values; `dict.get` is association-list lookup.
* Python's `str.lower`/NFD-accent-stripping is modelled on the
  character repertoire actually used by the bot (ASCII plus the
  accented Spanish letters appearing in the keyword lists); `\b` in
  `re` is modelled by the standard word/non-word boundary condition
  with word characters `[A-Za-z0-9_]`.
-/

namespace WhatsappBot

/-! ## IntentEngine (`app/services/intent_engine.py`) -/

/-- Word characters for the `\b` boundary of `re.search` (ASCII scope). -/
def isWordChar (c : Char) : Bool :=
  c.isAlphanum || c = '_'

/-- `str.lower` for the characters used by the bot (ASCII letters and
accented Spanish capitals). -/
def pyLower (c : Char) : Char :=
  if 'A' ≤ c ∧ c ≤ 'Z' then Char.ofNat (c.toNat + 32)
  else if c = 'Á' then 'á'
  else if c = 'É' then 'é'
  else if c = 'Í' then 'í'
  else if c = 'Ó' then 'ó'
  else if c = 'Ú' then 'ú'
  else if c = 'Ü' then 'ü'
  else if c = 'Ñ' then 'ñ'
  else c

/-- NFD decomposition followed by removal of combining marks (category
`Mn`), restricted to the accented letters the bot works with. -/
def stripAccent (c : Char) : Char :=
  if c = 'á' then 'a'
  else if c = 'é' then 'e'
  else if c = 'í' then 'i'
  else if c = 'ó' then 'o'
  else if c = 'ú' then 'u'
  else if c = 'ü' then 'u'
  else if c = 'ñ' then 'n'
  else c

/-- `str.strip()`: drop whitespace at both ends. -/
def pyStrip (l : List Char) : List Char :=
  ((l.dropWhile Char.isWhitespace).reverse.dropWhile Char.isWhitespace).reverse

/-- Collapse runs of consecutive spaces into one (the tail step of
`re.sub(r"\s+", " ", text)` once all whitespace is mapped to `' '`). -/
def squeezeSpaces : List Char → List Char
  | [] => []
  | [c] => [c]
  | a :: b :: rest =>
    if a = ' ' && b = ' ' then squeezeSpaces (b :: rest)
    else a :: squeezeSpaces (b :: rest)

/-- `re.sub(r"\s+", " ", text)`: each maximal whitespace run becomes one
space. -/
def collapseWhitespace (l : List Char) : List Char :=
  squeezeSpaces (l.map fun c => if c.isWhitespace then ' ' else c)

/-- `IntentEngine._normalize_text`: lowercase, strip, NFD-remove accents,
collapse whitespace. -/
def normalizeText (message : String) : List Char :=
  collapseWhitespace ((pyStrip (message.toList.map pyLower)).map stripAccent)

/-- The keyword occurs literally at position `i` of the text. -/
def occursAt (text kw : List Char) (i : Nat) : Bool :=
  (text.drop i).take kw.length == kw

/-- `\b` of `re`: position `p` is a boundary when exactly one of the
adjacent characters is a word character (out of range counts as
non-word). -/
def boundaryAt (text : List Char) (p : Nat) : Bool :=
  let left := if p = 0 then false else
    match text.get? (p - 1) with
    | some c => isWordChar c
    | none => false
  let right :=
    match text.get? p with
    | some c => isWordChar c
    | none => false
  left != right

/-- `re.search(rf"\b{re.escape(keyword)}\b", text)` for a single-token
keyword: some occurrence with word boundaries on both sides. -/
def singleTokenMatch (text kw : List Char) : Bool :=
  (List.range (text.length + 1)).any fun i =>
    occursAt text kw i && boundaryAt text i && boundaryAt text (i + kw.length)

/-- Python's `keyword in text`: the keyword occurs as a contiguous
substring. -/
def substringMatch (text kw : List Char) : Bool :=
  (List.range (text.length + 1)).any fun i => occursAt text kw i

/-- `IntentEngine._keyword_in_text`: phrases (containing a space) match
by substring containment, single tokens on word boundaries. -/
def keywordInText (text : List Char) (keyword : String) : Bool :=
  if keyword.toList.contains ' ' then substringMatch text keyword.toList
  else singleTokenMatch text keyword.toList

/-- `IntentEngine._count_matches`: number of matched keywords. -/
def countMatches (text : List Char) (keywords : List String) : Nat :=
  keywords.countP fun kw => keywordInText text kw

/-- The keyword lists of `IntentEngine.__init__`, in dict insertion
order. -/
def intentKeywords : List (String × List String) :=
  [ ("greeting",
      ["hola", "hello", "hi", "buenas", "buenos dias", "buen día",
       "buenas tardes", "buenas noches", "que tal", "qué tal", "como va",
       "cómo va", "como estas", "cómo estás", "todo bien", "saludos",
       "ey", "hey", "holaa", "holis", "buenas!"]),
    ("info_request",
      ["servicio", "servicios", "producto", "productos", "plan", "planes",
       "precio", "precios", "costo", "costos", "valor", "cuanto cuesta",
       "cuánto cuesta", "cuanto sale", "cuánto sale", "catalogo",
       "catálogo", "informacion", "información", "info", "detalles",
       "mas info", "más info", "quiero informacion", "me podes informar",
       "me podés informar", "que ofrecen", "qué ofrecen", "que incluye",
       "qué incluye", "como funciona", "cómo funciona", "de que se trata",
       "de qué se trata", "explicame", "explícame"]),
    ("availability_request",
      ["disponibilidad", "disponible", "hay cupo", "tienen cupo",
       "queda lugar", "hay lugar", "stock", "hay stock", "les queda",
       "horario", "horarios", "a que hora", "a qué hora",
       "cuando atienden", "cuándo atienden", "dias de atencion",
       "días de atención", "turno", "turnos", "agenda", "esta libre",
       "está libre", "puedo pasar", "puedo ir"]),
    ("booking_intent",
      ["reservar", "reserva", "agendar", "agendo", "quiero reservar",
       "quiero agendar", "sacar turno", "pedir cita", "cita", "contratar",
       "comprar", "quiero comprar", "me interesa", "interesado",
       "interesada", "quiero avanzar", "quiero contratar", "como contrato",
       "cómo contrato", "quiero el servicio", "quiero ese plan",
       "lo quiero", "lo llevo", "me lo quedo", "vamos con eso"]),
    ("confirmation",
      ["si", "sí", "confirmo", "confirmar", "correcto", "ok", "oki",
       "okey", "dale", "de una", "perfecto", "genial", "listo",
       "adelante", "aceptar", "esta bien", "está bien", "me sirve"]),
    ("cancellation",
      ["cancelar", "cancela", "anular", "anula", "detener", "stop",
       "olvida", "olvidalo", "salir", "no quiero", "ya no",
       "me arrepenti", "me arrepentí", "no me interesa", "no gracias",
       "dejalo", "déjalo"]),
    ("human_handoff",
      ["asesor", "agente", "humano", "persona", "representante",
       "soporte", "operador", "hablar con alguien",
       "hablar con una persona", "atencion humana", "atención humana",
       "quiero hablar con alguien", "pasame con alguien",
       "pasame con un asesor", "necesito ayuda", "me podes atender"]) ]

/-- The intent labels in dict insertion order. -/
def intentNames : List String :=
  intentKeywords.map Prod.fst

/-- `IntentEngine._priority_order`. -/
def priorityOrder : List String :=
  ["human_handoff", "cancellation", "confirmation", "booking_intent",
   "availability_request", "info_request", "greeting", "fallback"]

/-- Keywords configured for an intent (`[]` for labels outside the
dict, such as `fallback`). -/
def keywordsFor (intent : String) : List String :=
  ((intentKeywords.find? fun p => p.1 == intent).map Prod.snd).getD []

/-- Score of one intent on a message: matched-keyword count over the
normalized text. -/
def intentScore (message : String) (intent : String) : Nat :=
  countMatches (normalizeText message) (keywordsFor intent)

/-- `max(scores.values(), default=0)`. -/
def bestScore (message : String) : Nat :=
  (intentNames.map (intentScore message)).foldl Nat.max 0

/-- `IntentEngine.detect_intent`: zero best score yields `fallback`,
otherwise the first intent in priority order whose score equals the
best score. -/
def detectIntent (message : String) : String :=
  if bestScore message = 0 then "fallback"
  else
    ((priorityOrder.find? fun intent =>
        intentScore message intent == bestScore message).getD "fallback")

/-! ## ConversationManager (`app/services/conversation_manager.py`) and
FlowManager (`app/services/flow_manager.py`) -/

/-- Update an association list at a key (inserting when absent), the
effect of assigning into a Python dict. -/
def setAssoc (l : List (String × String)) (k v : String) : List (String × String) :=
  if l.any fun p => p.1 == k then
    l.map fun p => if p.1 == k then (k, v) else p
  else l ++ [(k, v)]

/-- `dict.pop(key, None)`: drop the entry for a key. -/
def removeAssoc (l : List (String × String)) (k : String) : List (String × String) :=
  l.filter fun p => p.1 != k

/-- In-memory state of `ConversationManager` (user → state) together
with `FlowManager._request_id_by_user`. -/
structure FlowState where
  states : List (String × String)
  requestIds : List (String × String)
deriving Repr, DecidableEq

/-- The empty flow state (fresh `ConversationManager`). -/
def FlowState.empty : FlowState := ⟨[], []⟩

/-- `ConversationManager.get_state` via `get_or_create_active_conversation`:
returns the stored state, creating an `idle` entry when absent. -/
def getStateInserting (fs : FlowState) (user : String) : String × FlowState :=
  match fs.states.find? fun p => p.1 == user with
  | some p => (p.2, fs)
  | none => ("idle", { fs with states := fs.states ++ [(user, "idle")] })

/-- Read-only view of the per-user state (missing entry reads `idle`). -/
def getState (fs : FlowState) (user : String) : String :=
  ((fs.states.find? fun p => p.1 == user).map Prod.snd).getD "idle"

/-- One catalog item as consumed by `FlowManager._format_item_list`,
with the dict-`get` defaults already applied. -/
structure ItemRow where
  name : String
  price : String
  itemType : String
deriving Repr, DecidableEq

/-- The injected data-source collaborator: catalog items plus the id
the next `create_request` call returns. -/
structure DataSourceModel where
  items : List ItemRow
  newRequestId : String
deriving Repr, DecidableEq

/-- `FlowManager._format_item_list`. -/
def formatItemList (items : List ItemRow) : String :=
  if items.isEmpty then "No hay opciones disponibles en este momento."
  else
    String.intercalate "\n"
      ("Estas son las opciones disponibles:" ::
        items.map fun item =>
          "- " ++ item.name ++ " (" ++ item.itemType ++ "): $" ++ item.price)

/-- `FlowManager.handle` in assisted mode: returns the optional canned
response and the successor flow state.  `none` signals "defer to the
AI-provider fallback". -/
def flowHandle (ds : DataSourceModel) (fs : FlowState)
    (intent user message : String) : Option String × FlowState :=
  -- `message` only feeds the request payload handed to the data source;
  -- the created id comes back through `ds.newRequestId`.
  let _ := message
  let (currentState, fs0) := getStateInserting fs user
  if intent == "greeting" then
    (some "Hola, soy tu asistente de WhatsApp Bot AI. En que te puedo ayudar hoy?", fs0)
  else if intent == "info_request" then
    (some (formatItemList ds.items), fs0)
  else if intent == "availability_request" then
    (some "Tenemos disponibilidad simulada para esta semana. Si quieres, iniciamos la solicitud.", fs0)
  else if intent == "booking_intent" then
    let fs1 := { fs0 with requestIds := setAssoc fs0.requestIds user ds.newRequestId }
    let fs2 := { fs1 with states := setAssoc fs1.states user "collecting_data" }
    (some "Perfecto. Para avanzar, comparteme fecha, hora y el producto o servicio que necesitas.", fs2)
  else if intent == "confirmation" then
    if currentState == "collecting_data" || currentState == "awaiting_confirmation" then
      (some "Perfecto. Un asesor validara y confirmara tu solicitud en breve.",
       { fs0 with states := setAssoc fs0.states user "pending_human_validation" })
    else
      (some "Primero debes iniciar una solicitud para poder confirmarla.", fs0)
  else if intent == "cancellation" then
    let fsr := { fs0 with states := removeAssoc fs0.states user }
    (some "Operacion cancelada. Si quieres, puedo ayudarte a iniciar una nueva solicitud.",
     { fsr with states := setAssoc fsr.states user "cancelled" })
  else
    (none, fs0)

/-! ## Data model (`app/models/*.py`)

Rows keep the columns the routing core reads or writes.  `human_status`
comes from migration `b44a4f95a9e7_add_human_status_to_conversations`
and is read/written by `HumanSupportService`. -/

/-- `app/models/user.py` (unique on `(business_id, external_id)`). -/
structure UserRow where
  id : Nat
  business_id : Nat
  external_id : String
  phone : String
  name : Option String
  is_active : Bool
deriving Repr, DecidableEq

/-- `app/models/conversation.py` plus the `human_status` column of the
migration; partial unique index on `(business_id, user_id)` where
`status = 'active'`. -/
structure ConvRow where
  id : Nat
  business_id : Nat
  user_id : Nat
  status : String
  mode : String
  control_mode : String
  human_status : Option String
  assigned_advisor_id : Option Nat
  assigned_agent_id : Option Nat
  started_at : Nat
  last_message_at : Option Nat
  closed_at : Option Nat
deriving Repr, DecidableEq

/-- `app/models/message.py` (the columns the router writes). -/
structure MsgRow where
  conversation_id : Nat
  user_id : Nat
  sender_type : String
  direction : String
  content : String
  created_at : Nat
deriving Repr, DecidableEq

/-- `app/models/advisor.py`. -/
structure AdvisorRow where
  id : Nat
  business_id : Nat
  name : String
  phone : String
  is_active : Bool
  created_at : Nat
deriving Repr, DecidableEq

/-- `app/models/agent.py` (`email` nullable; `""` models a falsy
value). -/
structure AgentRow where
  id : Nat
  business_id : Nat
  name : String
  email : String
  is_active : Bool
  created_at : Nat
deriving Repr, DecidableEq

/-- The persistent store.  `nextId` supplies fresh primary keys
(`uuid4` defaults) and `clock` plays `now()`. -/
structure Db where
  users : List UserRow
  conversations : List ConvRow
  messages : List MsgRow
  advisors : List AdvisorRow
  agents : List AgentRow
  nextId : Nat
  clock : Nat
deriving Repr, DecidableEq

/-- Replace the conversation row carrying the id of `c` by `c`
(`db.add(conversation); db.commit()` on a loaded row). -/
def updateConvRow (db : Db) (c : ConvRow) : Db :=
  { db with conversations := db.conversations.map fun r => if r.id == c.id then c else r }

/-- `ORDER BY key ASC LIMIT 1` (first listed row wins a tie). -/
def pickMinBy {α : Type} (key : α → Nat) : List α → Option α
  | [] => none
  | x :: xs =>
    match pickMinBy key xs with
    | none => some x
    | some y => if key x ≤ key y then some x else some y

/-- `ORDER BY key DESC LIMIT 1` (first listed row wins a tie). -/
def pickMaxBy {α : Type} (key : α → Nat) : List α → Option α
  | [] => none
  | x :: xs =>
    match pickMaxBy key xs with
    | none => some x
    | some y => if key y ≤ key x then some x else some y

/-! ## Webhook payloads -/

/-- A value in the webhook payload dict (string or boolean). -/
inductive PValue where
  | s (v : String)
  | b (v : Bool)
deriving Repr, DecidableEq

/-- The incoming webhook payload: a dict with unique keys. -/
abbrev IncomingMessage := List (String × PValue)

/-- `incoming_message.get(key)` (`none` models an absent key / `None`). -/
def getField (m : IncomingMessage) (key : String) : Option PValue :=
  (m.find? fun p => p.1 == key).map Prod.snd

/-- Python `str(value)`. -/
def pyStr : PValue → String
  | .s v => v
  | .b v => if v then "True" else "False"

/-- `str.strip()` on a `String`. -/
def strTrim (s : String) : String :=
  String.mk (pyStrip s.toList)

/-- The keys probed by `MessageRouter._extract_sender_phone`. -/
def phoneKeys : List String :=
  ["phone", "user", "from", "from_phone", "sender_phone", "wa_id"]

/-- `MessageRouter._extract_sender_phone`: first key whose stripped
string form is non-empty (`none` models the raised `ValueError`). -/
def extractSenderPhone (m : IncomingMessage) : Option String :=
  phoneKeys.findSome? fun key =>
    match getField m key with
    | some v => let t := strTrim (pyStr v); if t ≠ "" then some t else none
    | none => none

/-- The keys probed by `_extract_message_text`. -/
def textKeys : List String :=
  ["message", "text", "body"]

/-- `MessageRouter._extract_message_text`. -/
def extractMessageText (m : IncomingMessage) : Except String String :=
  match textKeys.findSome? fun key =>
      match getField m key with
      | some v => let t := strTrim (pyStr v); if t ≠ "" then some t else none
      | none => none with
  | some t => .ok t
  | none => .error "Incoming message is missing message content."

/-- Stand-in for `UUID(str(value))`: identifiers are decimal numerals
(`none` models the raised `ValueError`/`TypeError`). -/
def parseUuid (s : String) : Option Nat :=
  let cs := s.toList
  if cs.isEmpty then none
  else if cs.all Char.isDigit then
    some (cs.foldl (fun acc c => acc * 10 + (c.toNat - 48)) 0)
  else none

/-- `MessageRouter._extract_required_uuid`. -/
def extractRequiredUuid (m : IncomingMessage) (key : String) : Except String Nat :=
  match getField m key with
  | none => .error ("Incoming message is missing required '" ++ key ++ "' value.")
  | some v =>
    match parseUuid (pyStr v) with
    | some n => .ok n
    | none => .error ("Incoming message has invalid UUID for '" ++ key ++ "'.")

/-- The boolean sender flags probed by `_default_sender_resolver`. -/
def resolveSenderFlags (m : IncomingMessage) : String :=
  match ["is_agent", "is_advisor", "from_me"].findSome? fun key =>
      match getField m key with
      | some (.b bv) => some (if bv then "advisor" else "user")
      | _ => none with
  | some r => r
  | none => "user"

/-- `MessageRouter._default_sender_resolver`. -/
def defaultSenderResolver (phone : String) (m : IncomingMessage) : String :=
  let _ := phone
  match getField m "sender_type" with
  | some (.s sv) =>
    let normalized := String.mk ((pyStrip sv.toList).map pyLower)
    if normalized == "agent" || normalized == "advisor" then "advisor"
    else if normalized == "user" then "user"
    else resolveSenderFlags m
  | _ => resolveSenderFlags m

/-! ## MessageRouter (`app/services/message_router.py`)

Each SQLAlchemy commit is a serialization point.  Lookup-or-create
operations take two database snapshots: `readDb` (what the initial
`SELECT` saw) and `db` (the serialized state the `INSERT` commits
against); the sequential caller passes the same snapshot twice, a racing
first contact passes a stale `readDb`. -/

/-- The active-conversation predicate of the partial unique index
`uq_conversations_active_user` and of the lookup query of
`_get_or_create_active_conversation`. -/
def isActiveConvFor (businessId userId : Nat) (c : ConvRow) : Bool :=
  c.business_id == businessId && c.user_id == userId && c.status == "active"

/-- The lookup query of `_get_or_create_active_conversation`. -/
def findActiveConv (db : Db) (businessId userId : Nat) : Option ConvRow :=
  db.conversations.find? (isActiveConvFor businessId userId)

/-- A freshly constructed `Conversation(...)` as built by
`_get_or_create_active_conversation` (column defaults filled by the
store). -/
def newConversation (db : Db) (flowMode : String) (businessId userId : Nat) : ConvRow :=
  { id := db.nextId
    business_id := businessId
    user_id := userId
    status := "active"
    mode := flowMode
    control_mode := "ai"
    human_status := none
    assigned_advisor_id := none
    assigned_agent_id := none
    started_at := db.clock
    last_message_at := none
    closed_at := none }

/-- `MessageRouter._get_or_create_active_conversation`: look up in
`readDb`; on a miss, insert into `db`, and on a uniqueness violation
roll back, re-read `db` and return the winner, re-raising only when the
re-read also misses. -/
def getOrCreateActiveConversation (flowMode : String) (readDb db : Db)
    (businessId userId : Nat) : Except String (ConvRow × Db) :=
  match findActiveConv readDb businessId userId with
  | some c => .ok (c, db)
  | none =>
    let c := newConversation db flowMode businessId userId
    if db.conversations.any (isActiveConvFor businessId userId) then
      -- IntegrityError: rollback, re-read, return existing or re-raise
      match findActiveConv db businessId userId with
      | some existing => .ok (existing, db)
      | none => .error "IntegrityError"
    else
      .ok (c, { db with conversations := db.conversations ++ [c], nextId := db.nextId + 1 })

/-- The `(business_id, phone)` filter of the `_get_or_create_user`
lookup query. -/
def isUserRowFor (businessId : Nat) (phone : String) (u : UserRow) : Bool :=
  u.business_id == businessId && u.phone == phone

/-- The lookup query of `_get_or_create_user` (by `(business_id, phone)`). -/
def findUserByPhone (db : Db) (businessId : Nat) (phone : String) : Option UserRow :=
  db.users.find? (isUserRowFor businessId phone)

/-- The unique constraint `uq_users_business_external_id`. -/
def userConflict (db : Db) (businessId : Nat) (externalId : String) : Bool :=
  db.users.any fun u => u.business_id == businessId && u.external_id == externalId

/-- `MessageRouter._get_or_create_user`, with the same two-snapshot
reading as the conversation variant. -/
def getOrCreateUser (readDb db : Db) (businessId : Nat) (phone : String) :
    Except String (UserRow × Db) :=
  let normalizedPhone := strTrim phone
  match findUserByPhone readDb businessId normalizedPhone with
  | some u => .ok (u, db)
  | none =>
    let user : UserRow :=
      { id := db.nextId
        business_id := businessId
        external_id := normalizedPhone
        phone := normalizedPhone
        name := none
        is_active := true }
    if userConflict db businessId normalizedPhone then
      match findUserByPhone db businessId normalizedPhone with
      | some existing => .ok (existing, db)
      | none => .error "IntegrityError"
    else
      .ok (user, { db with users := db.users ++ [user], nextId := db.nextId + 1 })

/-- `MessageRouter._persist_message`: append the message row, stamp the
conversation's `last_message_at`, commit.  Returns the updated
conversation object alongside the store (the clock advances one tick
per commit). -/
def persistMessage (db : Db) (conversation : ConvRow)
    (senderType direction content : String) : ConvRow × Db :=
  let msg : MsgRow :=
    { conversation_id := conversation.id
      user_id := conversation.user_id
      sender_type := senderType
      direction := direction
      content := content
      created_at := db.clock }
  let conv1 := { conversation with last_message_at := some db.clock }
  (conv1,
   { updateConvRow db conv1 with
       messages := db.messages ++ [msg]
       clock := db.clock + 1 })

/-- `MessageRouter._get_active_advisor`: earliest-created active advisor
of the business. -/
def getActiveAdvisor (db : Db) (businessId : Nat) : Option AdvisorRow :=
  pickMinBy AdvisorRow.created_at
    (db.advisors.filter fun a => a.business_id == businessId && a.is_active)

/-- `MessageRouter._get_active_advisor_by_phone`. -/
def getActiveAdvisorByPhone (db : Db) (advisorPhone : String) : Option AdvisorRow :=
  pickMinBy AdvisorRow.created_at
    (db.advisors.filter fun a => a.phone == advisorPhone && a.is_active)

/-- `MessageRouter._resolve_client_identity`: the client name/phone for
the advisor notification, with fallbacks. -/
def resolveClientIdentity (db : Db) (conversation : ConvRow)
    (fallbackPhone : String) : String × String :=
  match db.users.find? fun u => u.id == conversation.user_id with
  | none => ("Cliente", fallbackPhone)
  | some u =>
    let clientName := match u.name with
      | some n => if strTrim n ≠ "" then strTrim n else "Cliente"
      | none => "Cliente"
    let clientPhone := if strTrim u.phone ≠ "" then strTrim u.phone else fallbackPhone
    (clientName, clientPhone)

/-- Observable collaborator calls made while routing one event. -/
inductive Effect where
  | flowCall (intent user message : String)
  | aiCall (message : String)
  | sendMessage (dest text : String)
deriving Repr, DecidableEq

/-- Result of routing one webhook payload: the committed store, the
collaborator calls in order, and the raised error if any. -/
structure RouteOutcome where
  db : Db
  effects : List Effect
  error : Option String
deriving Repr, DecidableEq

/-- The injected collaborators of `MessageRouter`: the flow mode, the
response function of `FlowManager.handle`, and the AI provider. -/
structure RouterEnv where
  flowMode : String
  flowResponse : String → String → String → Option String
  aiResponse : String → String

/-- `MessageRouter._handle_user_message`. -/
def handleUserMessage (env : RouterEnv) (db : Db) (phone : String)
    (m : IncomingMessage) : RouteOutcome :=
  match extractRequiredUuid m "business_id" with
  | .error e => ⟨db, [], some e⟩
  | .ok businessId =>
  match getOrCreateUser db db businessId phone with
  | .error e => ⟨db, [], some e⟩
  | .ok (user, db1) =>
  match getOrCreateActiveConversation env.flowMode db1 db1 businessId user.id with
  | .error e => ⟨db1, [], some e⟩
  | .ok (conversation, db2) =>
  match extractMessageText m with
  | .error e => ⟨db2, [], some e⟩
  | .ok messageText =>
  let (conv1, db3) := persistMessage db2 conversation "user" "inbound" messageText
  if conv1.control_mode == "human" then
    ⟨db3, [], none⟩
  else
    let intent := detectIntent messageText
    if intent == "human_handoff" then
      let advisor := getActiveAdvisor db3 conv1.business_id
      let conv2 := { conv1 with
        control_mode := "human"
        assigned_advisor_id := advisor.map AdvisorRow.id }
      let db4 := updateConvRow db3 conv2
      let response := "Un asesor continuará la conversación."
      let (conv3, db5) := persistMessage db4 conv2 "assistant" "outbound" response
      let userSend := [Effect.sendMessage phone response]
      match advisor with
      | some adv =>
        if strTrim adv.phone ≠ "" then
          let identity := resolveClientIdentity db5 conv3 phone
          let advisorMessage :=
            "Nueva conversación en modo humano.\nCliente: " ++ identity.1 ++
            "\nTeléfono: " ++ identity.2
          ⟨db5, userSend ++ [Effect.sendMessage (strTrim adv.phone) advisorMessage], none⟩
        else ⟨db5, userSend, none⟩
      | none => ⟨db5, userSend, none⟩
    else
      match env.flowResponse intent phone messageText with
      | some response =>
        let (_, db4) := persistMessage db3 conv1 "assistant" "outbound" response
        ⟨db4, [Effect.flowCall intent phone messageText,
               Effect.sendMessage phone response], none⟩
      | none =>
        let response := env.aiResponse messageText
        let (_, db4) := persistMessage db3 conv1 "assistant" "outbound" response
        ⟨db4, [Effect.flowCall intent phone messageText, Effect.aiCall messageText,
               Effect.sendMessage phone response], none⟩

/-- `MessageRouter._parse_close_command`: `/cerrar <client_phone>`
(case-insensitive command, exactly two whitespace-separated parts). -/
def parseCloseCommand (messageText : String) : Option String :=
  let t := pyStrip messageText.toList
  let command := t.takeWhile fun c => !c.isWhitespace
  let rawPhone := (t.drop command.length).dropWhile Char.isWhitespace
  if rawPhone.isEmpty then none
  else if String.mk (command.map pyLower) == "/cerrar" then
    let normalizedPhone := pyStrip rawPhone
    if normalizedPhone.isEmpty then none else some (String.mk normalizedPhone)
  else none

/-- The join of `_get_active_human_conversation_for_advisor_client`:
latest-started active human conversation of the advisor with the given
client phone. -/
def getActiveHumanConversationForAdvisorClient (db : Db) (advisor : AdvisorRow)
    (clientPhone : String) : Option ConvRow :=
  pickMaxBy ConvRow.started_at
    (db.conversations.filter fun c =>
      c.business_id == advisor.business_id && c.status == "active" &&
      c.control_mode == "human" && c.assigned_advisor_id == some advisor.id &&
      db.users.any fun u => u.id == c.user_id && u.phone == clientPhone)

/-- `MessageRouter._get_active_conversation_for_client_phone`. -/
def getActiveConversationForClientPhone (db : Db) (businessId : Nat)
    (clientPhone : String) : Option ConvRow :=
  pickMaxBy ConvRow.started_at
    (db.conversations.filter fun c =>
      c.business_id == businessId && c.status == "active" &&
      db.users.any fun u => u.id == c.user_id && u.phone == clientPhone)

/-- `MessageRouter._resolve_active_conversation`: by explicit
`business_id`/`user_id` (possibly creating), else the latest active
conversation joined on the sender phone. -/
def resolveActiveConversation (env : RouterEnv) (db : Db)
    (m : IncomingMessage) : Except String (ConvRow × Db) :=
  if (getField m "business_id").isSome ∧ (getField m "user_id").isSome then
    match extractRequiredUuid m "business_id" with
    | .error e => .error e
    | .ok businessId =>
    match extractRequiredUuid m "user_id" with
    | .error e => .error e
    | .ok userId => getOrCreateActiveConversation env.flowMode db db businessId userId
  else
    match extractSenderPhone m with
    | none => .error "Incoming message is missing sender phone identifier."
    | some phone =>
      match pickMaxBy ConvRow.started_at
          (db.conversations.filter fun c =>
            c.status == "active" &&
            db.users.any fun u => u.id == c.user_id && u.phone == phone) with
      | some c => .ok (c, db)
      | none => .error "Incoming message is missing business_id/user_id and no active conversation exists for sender phone."

/-- `MessageRouter._try_resolve_active_conversation` (swallows the
`ValueError`). -/
def tryResolveActiveConversation (env : RouterEnv) (db : Db)
    (m : IncomingMessage) : Option (ConvRow × Db) :=
  match resolveActiveConversation env db m with
  | .ok p => some p
  | .error _ => none

/-- `MessageRouter._handle_advisor_message`. -/
def handleAdvisorMessage (env : RouterEnv) (db : Db) (phone : String)
    (m : IncomingMessage) : RouteOutcome :=
  match extractMessageText m with
  | .error e => ⟨db, [], some e⟩
  | .ok messageText =>
  match parseCloseCommand messageText with
  | some closeClientPhone =>
    let notFound := "No se encontró conversación activa con ese cliente."
    match getActiveAdvisorByPhone db phone with
    | none =>
      match tryResolveActiveConversation env db m with
      | some (fallbackConversation, dbA) =>
        let (_, dbB) := persistMessage dbA fallbackConversation "advisor" "inbound" messageText
        ⟨dbB, [Effect.sendMessage phone notFound], none⟩
      | none => ⟨db, [Effect.sendMessage phone notFound], none⟩
    | some advisor =>
      match getActiveHumanConversationForAdvisorClient db advisor closeClientPhone with
      | none =>
        match getActiveConversationForClientPhone db advisor.business_id closeClientPhone with
        | some fallbackConversation =>
          let (_, dbB) := persistMessage db fallbackConversation "advisor" "inbound" messageText
          ⟨dbB, [Effect.sendMessage phone notFound], none⟩
        | none => ⟨db, [Effect.sendMessage phone notFound], none⟩
      | some conversation =>
        let (conv1, db1) := persistMessage db conversation "advisor" "inbound" messageText
        let conv2 := { conv1 with status := "closed", closed_at := some db1.clock }
        let db2 := updateConvRow db1 conv2
        ⟨db2, [Effect.sendMessage phone "Conversación cerrada correctamente."], none⟩
  | none =>
    match resolveActiveConversation env db m with
    | .error e => ⟨db, [], some e⟩
    | .ok (conversation, dbA) =>
      let (_, dbB) := persistMessage dbA conversation "advisor" "inbound" messageText
      ⟨dbB, [], none⟩

/-- `MessageRouter.route_message` with the default sender resolver. -/
def routeMessage (env : RouterEnv) (db : Db) (m : IncomingMessage) : RouteOutcome :=
  match extractSenderPhone m with
  | none => ⟨db, [], some "Incoming message is missing sender phone identifier."⟩
  | some phone =>
    if defaultSenderResolver phone m == "advisor" then
      handleAdvisorMessage env db phone m
    else
      handleUserMessage env db phone m

/-! ## HumanSupportService (`app/services/human_support_service.py`) -/

/-- `HumanSupportService._resolve_agent`: active agent whose contact
address (`email`) equals the sender phone. -/
def resolveAgent (db : Db) (phone : String) : Option AgentRow :=
  db.agents.find? fun a => a.email == phone && a.is_active

/-- `HumanSupportService._resolve_active_agent_for_business`. -/
def resolveActiveAgentForBusiness (db : Db) (businessId : Nat) : Option AgentRow :=
  pickMinBy AgentRow.created_at
    (db.agents.filter fun a => a.business_id == businessId && a.is_active)

/-- Waiting-queue membership used by `_get_next_waiting_conversation`. -/
def isWaitingConvFor (businessId : Nat) (c : ConvRow) : Bool :=
  c.business_id == businessId && c.control_mode == "human" &&
  c.human_status == some "waiting" && c.status == "active"

/-- `HumanSupportService._get_active_human_conversation`. -/
def getActiveHumanConversation (db : Db) (businessId : Nat) : Option ConvRow :=
  pickMinBy ConvRow.started_at
    (db.conversations.filter fun c =>
      c.business_id == businessId && c.control_mode == "human" &&
      c.human_status == some "active" && c.status == "active")

/-- `HumanSupportService._get_active_conversation_for_agent`. -/
def getActiveConversationForAgent (db : Db) (agent : AgentRow) : Option ConvRow :=
  pickMinBy ConvRow.started_at
    (db.conversations.filter fun c =>
      c.business_id == agent.business_id && c.assigned_agent_id == some agent.id &&
      c.control_mode == "human" && c.human_status == some "active" &&
      c.status == "active")

/-- `HumanSupportService._get_next_waiting_conversation`: FIFO head of
the waiting queue (`ORDER BY started_at ASC LIMIT 1`). -/
def getNextWaitingConversation (db : Db) (businessId : Nat) : Option ConvRow :=
  pickMinBy ConvRow.started_at (db.conversations.filter (isWaitingConvFor businessId))

/-- `HumanSupportService._close_conversation`: revert to AI control,
clear the human status, unassign the agent.  (`status` is untouched.) -/
def closeConversationRow (c : ConvRow) : ConvRow :=
  { c with control_mode := "ai", human_status := none, assigned_agent_id := none }

/-- `HumanSupportService._activate_conversation`. -/
def activateConversationRow (c : ConvRow) (agent : AgentRow) : ConvRow :=
  { c with control_mode := "human", human_status := some "active",
           assigned_agent_id := some agent.id }

/-- `HumanSupportService._agent_destination`. -/
def agentDestination (agent : AgentRow) (fallback : String) : String :=
  if strTrim agent.email ≠ "" then strTrim agent.email else fallback

/-- `HumanSupportService._resolve_user_phone` (a `""` phone is falsy for
the callers). -/
def resolveUserPhone (db : Db) (conversation : ConvRow) : Option String :=
  (db.users.find? fun u => u.id == conversation.user_id).map UserRow.phone

/-- `HumanSupportService._resolve_user_identity`. -/
def resolveUserIdentity (db : Db) (conversation : ConvRow) : String × String :=
  match db.users.find? fun u => u.id == conversation.user_id with
  | none => ("Sin nombre", "Sin teléfono")
  | some u =>
    (match u.name with
     | some n => if n ≠ "" then n else "Sin nombre"
     | none => "Sin nombre",
     if u.phone ≠ "" then u.phone else "Sin teléfono")

/-- `str.capitalize()` for the ASCII sender types. -/
def pyCapitalize (s : String) : String :=
  match s.toList with
  | [] => ""
  | c :: rest =>
    String.mk ((if 'a' ≤ c ∧ c ≤ 'z' then Char.ofNat (c.toNat - 32) else c) :: rest.map pyLower)

/-- Stable insertion into a list sorted by `created_at` descending. -/
def insertByCreatedDesc (m : MsgRow) : List MsgRow → List MsgRow
  | [] => [m]
  | x :: xs =>
    if m.created_at < x.created_at then x :: insertByCreatedDesc m xs
    else m :: x :: xs

/-- `sorted(messages, key=created_at, reverse=True)` (stable). -/
def sortByCreatedDesc : List MsgRow → List MsgRow
  | [] => []
  | x :: xs => insertByCreatedDesc x (sortByCreatedDesc xs)

/-- `HumanSupportService._format_last_messages`: last five messages,
oldest first. -/
def formatLastMessages (db : Db) (conversation : ConvRow) : String :=
  let msgs := sortByCreatedDesc
    (db.messages.filter fun msg => msg.conversation_id == conversation.id)
  let ordered := (msgs.take 5).reverse
  if ordered.isEmpty then "- Sin mensajes previos."
  else
    String.intercalate "\n"
      (ordered.map fun msg =>
        "- " ++ pyCapitalize msg.sender_type ++ ": " ++ strTrim msg.content)

/-- The context text pushed to an agent by
`_send_conversation_context_to_agent`. -/
def contextMessage (db : Db) (conversation : ConvRow) : String :=
  let (userName, userPhone) := resolveUserIdentity db conversation
  "Nuevo cliente asignado:\nNombre: " ++ userName ++ "\nTeléfono: " ++ userPhone ++
  "\nÚltimos mensajes (últimos 5):\n" ++ formatLastMessages db conversation

/-- `HumanSupportService.handle_agent_message`: resolve the agent, treat
a bare `/cerrar` as close-and-promote, otherwise forward to the
assigned user. -/
def handleAgentMessage (db : Db) (phone : String) (m : IncomingMessage) : RouteOutcome :=
  match resolveAgent db phone with
  | none => ⟨db, [], none⟩
  | some agent =>
  match extractMessageText m with
  | .error e => ⟨db, [], some e⟩
  | .ok messageText =>
  if String.mk ((pyStrip messageText.toList).map pyLower) == "/cerrar" then
    match getActiveConversationForAgent db agent with
    | none => ⟨db, [], none⟩
    | some conversation =>
      let db1 := updateConvRow db (closeConversationRow conversation)
      match getNextWaitingConversation db1 agent.business_id with
      | some nextConversation =>
        let next1 := activateConversationRow nextConversation agent
        let db2 := updateConvRow db1 next1
        if agent.email == "" then
          ⟨db2, [], some "Agent has no email destination."⟩
        else
          ⟨db2, [Effect.sendMessage (agentDestination agent agent.email)
                   (contextMessage db2 next1)], none⟩
      | none =>
        ⟨db1, [Effect.sendMessage (agentDestination agent phone)
                 "No hay más clientes en espera."], none⟩
  else
    match getActiveConversationForAgent db agent with
    | none =>
      ⟨db, [Effect.sendMessage (agentDestination agent phone) "No hay clientes activos."], none⟩
    | some conversation =>
      match resolveUserPhone db conversation with
      | none => ⟨db, [], none⟩
      | some userPhone =>
        if userPhone == "" then ⟨db, [], none⟩
        else ⟨db, [Effect.sendMessage userPhone messageText], none⟩

/-! ## Supporting lemmas -/

/-- Position of an intent in the tie-breaking priority order (smaller
is higher priority). -/
def priorityRank (intent : String) : Nat :=
  priorityOrder.findIdx fun i => i == intent

lemma seed_le_foldl_max (l : List Nat) (a : Nat) : a ≤ l.foldl Nat.max a := by
  induction l generalizing a with
  | nil => exact le_refl a
  | cons y ys ih =>
    simp only [List.foldl]
    exact le_trans (Nat.le_max_left a y) (ih (Nat.max a y))

lemma le_foldl_max (l : List Nat) (a x : Nat) (hx : x ∈ l) :
    x ≤ l.foldl Nat.max a := by
  induction l generalizing a with
  | nil => cases hx
  | cons y ys ih =>
    simp only [List.foldl]
    rcases List.mem_cons.mp hx with rfl | hmem
    · exact le_trans (Nat.le_max_right a x) (seed_le_foldl_max ys _)
    · exact ih _ hmem

lemma foldl_max_le (l : List Nat) (a b : Nat) (ha : a ≤ b)
    (h : ∀ x ∈ l, x ≤ b) : l.foldl Nat.max a ≤ b := by
  induction l generalizing a with
  | nil => simpa using ha
  | cons y ys ih =>
    simp only [List.foldl]
    refine ih _ ?_ (fun x hx => h x (List.mem_cons_of_mem y hx))
    exact Nat.max_le.mpr ⟨ha, h y (List.mem_cons_self y ys)⟩

lemma foldl_max_choice (l : List Nat) (a : Nat) :
    l.foldl Nat.max a = a ∨ l.foldl Nat.max a ∈ l := by
  induction l generalizing a with
  | nil => left; rfl
  | cons y ys ih =>
    simp only [List.foldl]
    rcases ih (Nat.max a y) with h | h
    · rw [h]
      rcases max_choice a y with hm | hm
      · left; exact hm
      · right
        rw [show Nat.max a y = a ⊔ y from rfl, hm]
        exact List.mem_cons_self y ys
    · right; exact List.mem_cons_of_mem y h

lemma intentScore_le_bestScore (msg : String) (i : String)
    (hi : i ∈ intentNames) : intentScore msg i ≤ bestScore msg :=
  le_foldl_max _ _ _ (List.mem_map_of_mem (intentScore msg) hi)

lemma bestScore_le (msg : String) (b : Nat)
    (h : ∀ i ∈ intentNames, intentScore msg i ≤ b) : bestScore msg ≤ b := by
  refine foldl_max_le _ _ _ (Nat.zero_le b) ?_
  intro x hx
  obtain ⟨i, hi, rfl⟩ := List.mem_map.mp hx
  exact h i hi

lemma bestScore_attained (msg : String) (h : bestScore msg ≠ 0) :
    ∃ i ∈ intentNames, intentScore msg i = bestScore msg := by
  rcases foldl_max_choice (intentNames.map (intentScore msg)) 0 with h0 | hmem
  · exact absurd h0 h
  · obtain ⟨i, hi, hq⟩ := List.mem_map.mp hmem
    exact ⟨i, hi, hq⟩

lemma find?_min_rank {α : Type} [BEq α] [LawfulBEq α] (p : α → Bool)
    (l : List α) (a : α) (h : l.find? p = some a) :
    ∀ b ∈ l, p b = true → l.findIdx (· == a) ≤ l.findIdx (· == b) := by
  induction l with
  | nil => cases h
  | cons x xs ih =>
    intro b hb hpb
    by_cases hx : p x = true
    · have hax : a = x := by
        rw [List.find?_cons_of_pos xs hx] at h
        exact (Option.some.inj h).symm
      subst hax
      simp [List.findIdx_cons]
    · rw [List.find?_cons_of_neg xs hx] at h
      have hpa : p a = true := List.find?_some h
      have hax : (x == a) = false := by
        refine beq_eq_false_iff_ne.mpr ?_
        intro hxa
        rw [hxa] at hx
        exact hx hpa
      rcases List.mem_cons.mp hb with rfl | hmem
      · rw [hpb] at hx
        exact absurd rfl hx
      · have hbx : (x == b) = false := by
          refine beq_eq_false_iff_ne.mpr ?_
          intro hxb
          rw [hxb] at hx
          exact hx hpb
        simp only [List.findIdx_cons, hax, hbx, cond_false]
        exact Nat.succ_le_succ (ih h b hmem hpb)

lemma detectIntent_of_find (msg : String) (i : String)
    (hne : bestScore msg ≠ 0)
    (hfound : (priorityOrder.find? fun intent =>
        intentScore msg intent == bestScore msg) = some i) :
    detectIntent msg = i := by
  simp [detectIntent, hne, hfound]

lemma intentNames_subset_priorityOrder :
    ∀ i ∈ intentNames, i ∈ priorityOrder := by decide

lemma priorityOrder_cases :
    ∀ r ∈ priorityOrder, r = "fallback" ∨ r ∈ intentNames := by decide

lemma intentScore_fallback (msg : String) : intentScore msg "fallback" = 0 := rfl

/-- When some keyword matched, `detect_intent` returns an intent of the
scores dict whose score equals the best score. -/
lemma detectIntent_mem_sat (msg : String) (h : bestScore msg ≠ 0) :
    detectIntent msg ∈ intentNames ∧
    intentScore msg (detectIntent msg) = bestScore msg ∧
    (priorityOrder.find? fun intent =>
      intentScore msg intent == bestScore msg) = some (detectIntent msg) := by
  obtain ⟨a, ha, hsc⟩ := bestScore_attained msg h
  have hsome : (priorityOrder.find? fun intent =>
      intentScore msg intent == bestScore msg).isSome := by
    refine List.find?_isSome.mpr ⟨a, intentNames_subset_priorityOrder a ha, ?_⟩
    exact beq_iff_eq.mpr hsc
  obtain ⟨r, hr⟩ := Option.isSome_iff_exists.mp hsome
  have hdet : detectIntent msg = r := by
    simp only [detectIntent]
    rw [if_neg h, hr]
    rfl
  have hpr0 := List.find?_some hr
  have hpr : intentScore msg r = bestScore msg := by
    rw [beq_iff_eq] at hpr0
    exact hpr0
  have hrmem : r ∈ priorityOrder := List.mem_of_find?_eq_some hr
  have hrname : r ∈ intentNames := by
    rcases priorityOrder_cases r hrmem with rfl | hmem
    · rw [intentScore_fallback] at hpr
      exact absurd hpr.symm h
    · exact hmem
  rw [hdet]
  exact ⟨hrname, hpr, hr⟩

/-- C6: on a tie at the maximum score the fixed priority order decides. -/
theorem detect_intent_tie_broken_by_priority (msg : String)
    (h : bestScore msg ≠ 0) :
    detectIntent msg ∈ intentNames ∧
    intentScore msg (detectIntent msg) = bestScore msg ∧
    ∀ j ∈ intentNames, intentScore msg j = bestScore msg →
      priorityRank (detectIntent msg) ≤ priorityRank j := by
  obtain ⟨hmem, hsc, hfind⟩ := detectIntent_mem_sat msg h
  refine ⟨hmem, hsc, ?_⟩
  intro j hj hjsc
  exact find?_min_rank _ priorityOrder _ hfind j
    (intentNames_subset_priorityOrder j hj) (beq_iff_eq.mpr hjsc)

/-- C7: a unique strict maximum wins regardless of the priority order. -/
theorem detect_intent_strict_max (msg : String) (i : String)
    (hi : i ∈ intentNames)
    (hstrict : ∀ j ∈ intentNames, j ≠ i → intentScore msg j < intentScore msg i) :
    detectIntent msg = i := by
  have hbest : bestScore msg = intentScore msg i := by
    refine Nat.le_antisymm ?_ (intentScore_le_bestScore msg i hi)
    refine bestScore_le msg _ ?_
    intro j hj
    by_cases hji : j = i
    · subst hji; exact le_refl _
    · exact Nat.le_of_lt (hstrict j hj hji)
  have hpos : 0 < intentScore msg i := by
    by_cases hgi : i = "greeting"
    · subst hgi
      have := hstrict "human_handoff" (by decide) (by decide)
      omega
    · have := hstrict "greeting" (by decide) fun e => hgi e.symm
      omega
  have hne : bestScore msg ≠ 0 := by rw [hbest]; omega
  obtain ⟨hmem, hsc, _⟩ := detectIntent_mem_sat msg hne
  by_cases hd : detectIntent msg = i
  · exact hd
  · have := hstrict (detectIntent msg) hmem hd
    rw [hbest] at hsc
    omega

/-- C8: with no matching keyword anywhere, `detect_intent` returns
`fallback`. -/
theorem detect_intent_all_zero_fallback (msg : String)
    (h : ∀ i ∈ intentNames, intentScore msg i = 0) :
    detectIntent msg = "fallback" := by
  have hbest : bestScore msg = 0 :=
    Nat.le_antisymm (bestScore_le msg 0 fun i hi => le_of_eq (h i hi)) (Nat.zero_le _)
  simp [detectIntent, hbest]

/-- Witness for C6 at the message "hola asesor" (greeting and
human_handoff tie at score 1; human_handoff has higher priority). -/
theorem detect_intent_tie_broken_by_priority_witness :
    bestScore "hola asesor" ≠ 0 ∧
    (detectIntent "hola asesor" ∈ intentNames ∧
     intentScore "hola asesor" (detectIntent "hola asesor") = bestScore "hola asesor" ∧
     ∀ j ∈ intentNames, intentScore "hola asesor" j = bestScore "hola asesor" →
       priorityRank (detectIntent "hola asesor") ≤ priorityRank j) :=
  ⟨by decide, detect_intent_tie_broken_by_priority "hola asesor" (by decide)⟩

/-- Witness for C7 at "quiero reservar una consulta", where
booking_intent scores 2 and every other intent scores less. -/
theorem detect_intent_strict_max_witness :
    ("booking_intent" ∈ intentNames ∧
     ∀ j ∈ intentNames, j ≠ "booking_intent" →
       intentScore "quiero reservar una consulta" j <
       intentScore "quiero reservar una consulta" "booking_intent") ∧
    detectIntent "quiero reservar una consulta" = "booking_intent" :=
  ⟨⟨by decide, by decide⟩,
   detect_intent_strict_max "quiero reservar una consulta" "booking_intent"
     (by decide) (by decide)⟩

/-- Witness for C8 at "zzz qqq", which matches no keyword. -/
theorem detect_intent_all_zero_fallback_witness :
    (∀ i ∈ intentNames, intentScore "zzz qqq" i = 0) ∧
    detectIntent "zzz qqq" = "fallback" :=
  ⟨by decide, detect_intent_all_zero_fallback "zzz qqq" (by decide)⟩

/-- C9 counterexample: for "Hola, quiero reservar una consulta" the
booking_intent score is 2, not 1 as claimed — both the token "reservar"
and the phrase "quiero reservar" match — so booking_intent wins by
strict maximum rather than by the priority tie-break. -/
theorem booking_example_scores_counterexample :
    intentScore "Hola, quiero reservar una consulta" "booking_intent" = 2 ∧
    intentScore "Hola, quiero reservar una consulta" "booking_intent" ≠ 1 := by
  refine ⟨by decide, ?_⟩
  decide

/-- C9 amended: for "Hola, quiero reservar una consulta" the scores are
greeting=1 and booking_intent=2, booking_intent wins by strict maximum,
and `FlowManager.handle` on booking_intent moves a fresh user from
`idle` to `collecting_data` and returns the data-collection prompt
(whatever the data source answers for the created request). -/
theorem booking_example_amended : ∀ ds : DataSourceModel,
    intentScore "Hola, quiero reservar una consulta" "greeting" = 1 ∧
    intentScore "Hola, quiero reservar una consulta" "booking_intent" = 2 ∧
    detectIntent "Hola, quiero reservar una consulta" = "booking_intent" ∧
    getState FlowState.empty "u" = "idle" ∧
    (flowHandle ds FlowState.empty "booking_intent" "u"
        "Hola, quiero reservar una consulta").1 =
      some "Perfecto. Para avanzar, comparteme fecha, hora y el producto o servicio que necesitas." ∧
    getState (flowHandle ds FlowState.empty "booking_intent" "u"
        "Hola, quiero reservar una consulta").2 "u" = "collecting_data" := by
  intro ds
  refine ⟨by decide, by decide, by decide, rfl, rfl, rfl⟩

/-- An empty store (shared fixture for concrete runs). -/
def emptyDb : Db :=
  { users := [], conversations := [], messages := [], advisors := []
    agents := [], nextId := 1, clock := 0 }

lemma no_active_conv_no_conflict {db : Db} {businessId userId : Nat}
    (h : findActiveConv db businessId userId = none) :
    db.conversations.any (isActiveConvFor businessId userId) = false := by
  rw [List.any_eq_false]
  intro x hx
  exact List.find?_eq_none.mp h x hx

/-- C10: a conversation freshly created by the router's
resolve-or-create path starts active, AI-controlled, unassigned, and in
the flow manager's mode. -/
theorem created_conversation_initial_state (flowMode : String) (db : Db)
    (businessId userId : Nat)
    (h : findActiveConv db businessId userId = none) :
    getOrCreateActiveConversation flowMode db db businessId userId =
      .ok (newConversation db flowMode businessId userId,
        { db with
            conversations := db.conversations ++ [newConversation db flowMode businessId userId]
            nextId := db.nextId + 1 }) ∧
    (newConversation db flowMode businessId userId).status = "active" ∧
    (newConversation db flowMode businessId userId).control_mode = "ai" ∧
    (newConversation db flowMode businessId userId).assigned_advisor_id = none ∧
    (newConversation db flowMode businessId userId).assigned_agent_id = none ∧
    (newConversation db flowMode businessId userId).human_status = none ∧
    (newConversation db flowMode businessId userId).mode = flowMode := by
  have hany := no_active_conv_no_conflict h
  refine ⟨?_, rfl, rfl, rfl, rfl, rfl, rfl⟩
  simp only [getOrCreateActiveConversation, h, hany]
  rfl

/-- Witness for C10: first contact on an empty store. -/
theorem created_conversation_initial_state_witness :
    findActiveConv emptyDb 1 2 = none ∧
    (getOrCreateActiveConversation "assisted" emptyDb emptyDb 1 2 =
      .ok (newConversation emptyDb "assisted" 1 2,
        { emptyDb with
            conversations := emptyDb.conversations ++ [newConversation emptyDb "assisted" 1 2]
            nextId := emptyDb.nextId + 1 }) ∧
    (newConversation emptyDb "assisted" 1 2).status = "active" ∧
    (newConversation emptyDb "assisted" 1 2).control_mode = "ai" ∧
    (newConversation emptyDb "assisted" 1 2).assigned_advisor_id = none ∧
    (newConversation emptyDb "assisted" 1 2).assigned_agent_id = none ∧
    (newConversation emptyDb "assisted" 1 2).human_status = none ∧
    (newConversation emptyDb "assisted" 1 2).mode = "assisted") :=
  ⟨rfl, created_conversation_initial_state "assisted" emptyDb 1 2 rfl⟩

/-- C3: two concurrent first-contact events for the same
`(business_id, phone)` / `(business_id, user_id)` key.  The first event
reads snapshot `db0` and commits; the second also read the stale `db0`
(missing the row), hits the uniqueness violation on insert, rolls back,
re-reads, and returns the row inserted by the first event.  Exactly one
row is created and both events reference it. -/
theorem first_contact_race_idempotent (flowMode : String) (db0 : Db)
    (businessId userId : Nat) (phone : String)
    (hc : findActiveConv db0 businessId userId = none)
    (hu : findUserByPhone db0 businessId (strTrim phone) = none)
    (huc : userConflict db0 businessId (strTrim phone) = false) :
    (∃ c db1,
      getOrCreateActiveConversation flowMode db0 db0 businessId userId = .ok (c, db1) ∧
      getOrCreateActiveConversation flowMode db0 db1 businessId userId = .ok (c, db1) ∧
      db1.conversations = db0.conversations ++ [c] ∧
      db1.conversations.filter (isActiveConvFor businessId userId) = [c]) ∧
    (∃ u du1,
      getOrCreateUser db0 db0 businessId phone = .ok (u, du1) ∧
      getOrCreateUser db0 du1 businessId phone = .ok (u, du1) ∧
      du1.users = db0.users ++ [u]) := by
  have hany := no_active_conv_no_conflict hc
  constructor
  · refine ⟨newConversation db0 flowMode businessId userId,
      { db0 with
          conversations := db0.conversations ++ [newConversation db0 flowMode businessId userId]
          nextId := db0.nextId + 1 }, ?_, ?_, rfl, ?_⟩
    · simp only [getOrCreateActiveConversation, hc, hany]
      rfl
    · have hp : isActiveConvFor businessId userId
          (newConversation db0 flowMode businessId userId) = true := by
        simp [isActiveConvFor, newConversation]
      have hconflict : (db0.conversations ++
          [newConversation db0 flowMode businessId userId]).any
            (isActiveConvFor businessId userId) = true := by
        rw [List.any_eq_true]
        exact ⟨newConversation db0 flowMode businessId userId,
          List.mem_append_right _ (List.mem_singleton.mpr rfl), hp⟩
      have hfind : findActiveConv
          { db0 with
              conversations := db0.conversations ++
                [newConversation db0 flowMode businessId userId]
              nextId := db0.nextId + 1 } businessId userId =
          some (newConversation db0 flowMode businessId userId) := by
        simp only [findActiveConv] at hc ⊢
        rw [List.find?_append, hc, List.find?_cons_of_pos _ hp]
        rfl
      simp only [getOrCreateActiveConversation, hc, hconflict, hfind]
      simp
    · have hnil : db0.conversations.filter (isActiveConvFor businessId userId) = [] := by
        rw [List.filter_eq_nil_iff]
        intro a ha
        exact List.find?_eq_none.mp hc a ha
      have hp : isActiveConvFor businessId userId
          (newConversation db0 flowMode businessId userId) = true := by
        simp [isActiveConvFor, newConversation]
      rw [List.filter_append, hnil, List.filter_cons_of_pos hp]
      rfl
  · refine ⟨⟨db0.nextId, businessId, strTrim phone, strTrim phone, none, true⟩,
      { db0 with
          users := db0.users ++ [⟨db0.nextId, businessId, strTrim phone, strTrim phone, none, true⟩]
          nextId := db0.nextId + 1 }, ?_, ?_, rfl⟩
    · simp only [getOrCreateUser, hu, huc]
      rfl
    · have hp : isUserRowFor businessId (strTrim phone)
          ⟨db0.nextId, businessId, strTrim phone, strTrim phone, none, true⟩ = true := by
        simp [isUserRowFor]
      have hconflict : userConflict
          { db0 with
              users := db0.users ++ [⟨db0.nextId, businessId, strTrim phone,
                strTrim phone, none, true⟩]
              nextId := db0.nextId + 1 } businessId (strTrim phone) = true := by
        simp only [userConflict]
        rw [List.any_eq_true]
        exact ⟨⟨db0.nextId, businessId, strTrim phone, strTrim phone, none, true⟩,
          List.mem_append_right _ (List.mem_singleton.mpr rfl), by simp⟩
      have hfind : findUserByPhone
          { db0 with
              users := db0.users ++ [⟨db0.nextId, businessId, strTrim phone,
                strTrim phone, none, true⟩]
              nextId := db0.nextId + 1 } businessId (strTrim phone) =
          some ⟨db0.nextId, businessId, strTrim phone, strTrim phone, none, true⟩ := by
        simp only [findUserByPhone] at hu ⊢
        rw [List.find?_append, hu, List.find?_cons_of_pos _ hp]
        rfl
      simp only [getOrCreateUser, hu, hconflict, hfind]
      simp

/-- Witness for C3: a race between two first-contact events for
business 1, user 2, phone "+5" on an empty store. -/
theorem first_contact_race_idempotent_witness :
    (findActiveConv emptyDb 1 2 = none ∧
     findUserByPhone emptyDb 1 (strTrim "+5") = none ∧
     userConflict emptyDb 1 (strTrim "+5") = false) ∧
    ((∃ c db1,
      getOrCreateActiveConversation "assisted" emptyDb emptyDb 1 2 = .ok (c, db1) ∧
      getOrCreateActiveConversation "assisted" emptyDb db1 1 2 = .ok (c, db1) ∧
      db1.conversations = emptyDb.conversations ++ [c] ∧
      db1.conversations.filter (isActiveConvFor 1 2) = [c]) ∧
    (∃ u du1,
      getOrCreateUser emptyDb emptyDb 1 "+5" = .ok (u, du1) ∧
      getOrCreateUser emptyDb du1 1 "+5" = .ok (u, du1) ∧
      du1.users = emptyDb.users ++ [u])) :=
  ⟨⟨rfl, rfl, rfl⟩, first_contact_race_idempotent "assisted" emptyDb 1 2 "+5" rfl rfl rfl⟩

lemma mem_updateConvRow (db : Db) (c r : ConvRow)
    (hr : r ∈ db.conversations) (hid : r.id = c.id) :
    c ∈ (updateConvRow db c).conversations := by
  simp only [updateConvRow]
  have himg : (fun x : ConvRow => if x.id == c.id then c else x) r = c := by
    simp [hid]
  have h2 := List.mem_map_of_mem (fun x : ConvRow => if x.id == c.id then c else x) hr
  rwa [himg] at h2

lemma getOrCreateConv_mem {flowMode : String} {db : Db} {businessId userId : Nat}
    {c : ConvRow} {db' : Db}
    (h : getOrCreateActiveConversation flowMode db db businessId userId = .ok (c, db')) :
    c ∈ db'.conversations := by
  unfold getOrCreateActiveConversation at h
  cases hf : findActiveConv db businessId userId with
  | some c0 =>
    rw [hf] at h
    simp only [Except.ok.injEq, Prod.mk.injEq] at h
    obtain ⟨rfl, rfl⟩ := h
    exact List.mem_of_find?_eq_some hf
  | none =>
    rw [hf] at h
    by_cases hconf : db.conversations.any (isActiveConvFor businessId userId) = true
    · rw [if_pos hconf] at h
      cases h
    · rw [if_neg hconf] at h
      simp only [Except.ok.injEq, Prod.mk.injEq] at h
      obtain ⟨rfl, rfl⟩ := h
      exact List.mem_append_right _ (List.mem_singleton.mpr rfl)

lemma getOrCreateUser_messages {readDb db : Db} {businessId : Nat} {phone : String}
    {u : UserRow} {db' : Db}
    (h : getOrCreateUser readDb db businessId phone = .ok (u, db')) :
    db'.messages = db.messages ∧ db'.conversations = db.conversations := by
  simp only [getOrCreateUser] at h
  cases hf : findUserByPhone readDb businessId (strTrim phone) with
  | some u0 =>
    rw [hf] at h
    simp only [Except.ok.injEq, Prod.mk.injEq] at h
    obtain ⟨rfl, rfl⟩ := h
    exact ⟨rfl, rfl⟩
  | none =>
    rw [hf] at h
    by_cases hconf : userConflict db businessId (strTrim phone) = true
    · rw [if_pos hconf] at h
      cases hf2 : findUserByPhone db businessId (strTrim phone) with
      | some u1 =>
        rw [hf2] at h
        simp only [Except.ok.injEq, Prod.mk.injEq] at h
        obtain ⟨rfl, rfl⟩ := h
        exact ⟨rfl, rfl⟩
      | none => rw [hf2] at h; cases h
    · rw [if_neg hconf] at h
      simp only [Except.ok.injEq, Prod.mk.injEq] at h
      obtain ⟨rfl, rfl⟩ := h
      exact ⟨rfl, rfl⟩

lemma getOrCreateConv_messages {flowMode : String} {readDb db : Db}
    {businessId userId : Nat} {c : ConvRow} {db' : Db}
    (h : getOrCreateActiveConversation flowMode readDb db businessId userId = .ok (c, db')) :
    db'.messages = db.messages := by
  unfold getOrCreateActiveConversation at h
  cases hf : findActiveConv readDb businessId userId with
  | some c0 =>
    rw [hf] at h
    simp only [Except.ok.injEq, Prod.mk.injEq] at h
    obtain ⟨rfl, rfl⟩ := h
    rfl
  | none =>
    rw [hf] at h
    by_cases hconf : db.conversations.any (isActiveConvFor businessId userId) = true
    · rw [if_pos hconf] at h
      cases hf2 : findActiveConv db businessId userId with
      | some c1 =>
        rw [hf2] at h
        simp only [Except.ok.injEq, Prod.mk.injEq] at h
        obtain ⟨rfl, rfl⟩ := h
        rfl
      | none => rw [hf2] at h; cases h
    · rw [if_neg hconf] at h
      simp only [Except.ok.injEq, Prod.mk.injEq] at h
      obtain ⟨rfl, rfl⟩ := h
      rfl

/-- Collaborators fixture: assisted mode, a flow that always defers and
a canned AI answer. -/
def exEnv : RouterEnv :=
  { flowMode := "assisted", flowResponse := fun _ _ _ => none, aiResponse := fun _ => "[AI]" }

/-- C1: while a conversation is `control_mode=human`, routing a user
message persists the inbound message and stops: no flow call, no AI
call, no outbound send, and the conversation stays human-controlled in
the committed store. -/
theorem human_mode_no_generated_reply (env : RouterEnv) (db : Db)
    (phone : String) (m : IncomingMessage) (businessId : Nat)
    (user : UserRow) (db1 : Db) (conversation : ConvRow) (db2 : Db) (text : String)
    (hb : extractRequiredUuid m "business_id" = .ok businessId)
    (hu : getOrCreateUser db db businessId phone = .ok (user, db1))
    (hc : getOrCreateActiveConversation env.flowMode db1 db1 businessId user.id =
      .ok (conversation, db2))
    (ht : extractMessageText m = .ok text)
    (hhuman : conversation.control_mode = "human") :
    handleUserMessage env db phone m =
      ⟨(persistMessage db2 conversation "user" "inbound" text).2, [], none⟩ ∧
    ((persistMessage db2 conversation "user" "inbound" text).1).control_mode = "human" := by
  have h1 : ((persistMessage db2 conversation "user" "inbound" text).1).control_mode =
      "human" := by
    simp [persistMessage, hhuman]
  refine ⟨?_, h1⟩
  simp only [handleUserMessage, hb, hu, hc, ht]
  simp [persistMessage, hhuman]

/-- Store fixture for C1: one user with an ongoing human-controlled
conversation. -/
def humanDb : Db :=
  { users := [⟨20, 1, "+200", "+200", none, true⟩]
    conversations :=
      [⟨10, 1, 20, "active", "assisted", "human", none, some 100, none, 1, none, none⟩]
    messages := [], advisors := [], agents := [], nextId := 30, clock := 10 }

/-- Payload fixture for C1: a plain user text message. -/
def humanMsg : IncomingMessage :=
  [("business_id", .s "1"), ("phone", .s "+200"), ("message", .s "hola")]

/-- Witness for C1 on the `humanDb` fixture. -/
theorem human_mode_no_generated_reply_witness :
    (extractRequiredUuid humanMsg "business_id" = .ok 1 ∧
     getOrCreateUser humanDb humanDb 1 "+200" = .ok (⟨20, 1, "+200", "+200", none, true⟩, humanDb) ∧
     getOrCreateActiveConversation exEnv.flowMode humanDb humanDb 1 20 =
       .ok (⟨10, 1, 20, "active", "assisted", "human", none, some 100, none, 1, none, none⟩, humanDb) ∧
     extractMessageText humanMsg = .ok "hola" ∧
     (⟨10, 1, 20, "active", "assisted", "human", none, some 100, none, 1, none, none⟩ : ConvRow).control_mode = "human") ∧
    (handleUserMessage exEnv humanDb "+200" humanMsg =
      ⟨(persistMessage humanDb
          ⟨10, 1, 20, "active", "assisted", "human", none, some 100, none, 1, none, none⟩
          "user" "inbound" "hola").2, [], none⟩ ∧
     ((persistMessage humanDb
          ⟨10, 1, 20, "active", "assisted", "human", none, some 100, none, 1, none, none⟩
          "user" "inbound" "hola").1).control_mode = "human") :=
  ⟨⟨rfl, rfl, rfl, rfl, rfl⟩,
   human_mode_no_generated_reply exEnv humanDb "+200" humanMsg 1
     ⟨20, 1, "+200", "+200", none, true⟩ humanDb
     ⟨10, 1, 20, "active", "assisted", "human", none, some 100, none, 1, none, none⟩ humanDb
     "hola" rfl rfl rfl rfl rfl⟩

/-- C4 (amended): a "quiero hablar con un asesor" message on an
AI-controlled conversation detects human_handoff, switches the
conversation to `control_mode=human` with the earliest-created active
advisor assigned, notifies the user and the advisor, and makes no flow
or AI call — but `human_status` is left unchanged (the router's handoff
branch never writes it). -/
theorem handoff_assigns_and_notifies (env : RouterEnv) (db : Db) (phone : String)
    (m : IncomingMessage) (businessId : Nat) (user : UserRow) (db1 : Db)
    (conversation : ConvRow) (db2 : Db) (advisor : AdvisorRow)
    (hb : extractRequiredUuid m "business_id" = .ok businessId)
    (hu : getOrCreateUser db db businessId phone = .ok (user, db1))
    (hc : getOrCreateActiveConversation env.flowMode db1 db1 businessId user.id =
      .ok (conversation, db2))
    (ht : extractMessageText m = .ok "quiero hablar con un asesor")
    (hai : conversation.control_mode = "ai")
    (hadv : getActiveAdvisor
        (persistMessage db2 conversation "user" "inbound" "quiero hablar con un asesor").2
        conversation.business_id = some advisor)
    (hphone : strTrim advisor.phone ≠ "") :
    detectIntent "quiero hablar con un asesor" = "human_handoff" ∧
    ∃ conv2 db5 clientName clientPhone,
      handleUserMessage env db phone m =
        ⟨db5,
         [Effect.sendMessage phone "Un asesor continuará la conversación.",
          Effect.sendMessage (strTrim advisor.phone)
            ("Nueva conversación en modo humano.\nCliente: " ++ clientName ++
             "\nTeléfono: " ++ clientPhone)], none⟩ ∧
      conv2.id = conversation.id ∧
      conv2.control_mode = "human" ∧
      conv2.assigned_advisor_id = some advisor.id ∧
      conv2.human_status = conversation.human_status ∧
      conv2 ∈ db5.conversations := by
  have hdet : detectIntent "quiero hablar con un asesor" = "human_handoff" := by decide
  refine ⟨hdet, ?_⟩
  have hmemc : conversation ∈ db2.conversations := getOrCreateConv_mem hc
  have hmem1 : (persistMessage db2 conversation "user" "inbound" "quiero hablar con un asesor").1 ∈
      (persistMessage db2 conversation "user" "inbound" "quiero hablar con un asesor").2.conversations := by
    simp only [persistMessage]
    exact mem_updateConvRow db2 _ conversation hmemc rfl
  have hfalse : (("ai" : String) == "human") = false := by decide
  refine ⟨(persistMessage
      (updateConvRow
        (persistMessage db2 conversation "user" "inbound" "quiero hablar con un asesor").2
        { (persistMessage db2 conversation "user" "inbound" "quiero hablar con un asesor").1 with
            control_mode := "human", assigned_advisor_id := some advisor.id })
      { (persistMessage db2 conversation "user" "inbound" "quiero hablar con un asesor").1 with
          control_mode := "human", assigned_advisor_id := some advisor.id }
      "assistant" "outbound" "Un asesor continuará la conversación.").1,
    (persistMessage
      (updateConvRow
        (persistMessage db2 conversation "user" "inbound" "quiero hablar con un asesor").2
        { (persistMessage db2 conversation "user" "inbound" "quiero hablar con un asesor").1 with
            control_mode := "human", assigned_advisor_id := some advisor.id })
      { (persistMessage db2 conversation "user" "inbound" "quiero hablar con un asesor").1 with
          control_mode := "human", assigned_advisor_id := some advisor.id }
      "assistant" "outbound" "Un asesor continuará la conversación.").2,
    (resolveClientIdentity
      (persistMessage
        (updateConvRow
          (persistMessage db2 conversation "user" "inbound" "quiero hablar con un asesor").2
          { (persistMessage db2 conversation "user" "inbound" "quiero hablar con un asesor").1 with
              control_mode := "human", assigned_advisor_id := some advisor.id })
        { (persistMessage db2 conversation "user" "inbound" "quiero hablar con un asesor").1 with
            control_mode := "human", assigned_advisor_id := some advisor.id }
        "assistant" "outbound" "Un asesor continuará la conversación.").2
      (persistMessage
        (updateConvRow
          (persistMessage db2 conversation "user" "inbound" "quiero hablar con un asesor").2
          { (persistMessage db2 conversation "user" "inbound" "quiero hablar con un asesor").1 with
              control_mode := "human", assigned_advisor_id := some advisor.id })
        { (persistMessage db2 conversation "user" "inbound" "quiero hablar con un asesor").1 with
            control_mode := "human", assigned_advisor_id := some advisor.id }
        "assistant" "outbound" "Un asesor continuará la conversación.").1 phone).1,
    (resolveClientIdentity
      (persistMessage
        (updateConvRow
          (persistMessage db2 conversation "user" "inbound" "quiero hablar con un asesor").2
          { (persistMessage db2 conversation "user" "inbound" "quiero hablar con un asesor").1 with
              control_mode := "human", assigned_advisor_id := some advisor.id })
        { (persistMessage db2 conversation "user" "inbound" "quiero hablar con un asesor").1 with
            control_mode := "human", assigned_advisor_id := some advisor.id }
        "assistant" "outbound" "Un asesor continuará la conversación.").2
      (persistMessage
        (updateConvRow
          (persistMessage db2 conversation "user" "inbound" "quiero hablar con un asesor").2
          { (persistMessage db2 conversation "user" "inbound" "quiero hablar con un asesor").1 with
              control_mode := "human", assigned_advisor_id := some advisor.id })
        { (persistMessage db2 conversation "user" "inbound" "quiero hablar con un asesor").1 with
            control_mode := "human", assigned_advisor_id := some advisor.id }
        "assistant" "outbound" "Un asesor continuará la conversación.").1 phone).2,
    ?_, ?_, ?_, ?_, ?_, ?_⟩
  · -- the routing equation
    simp only [handleUserMessage, hb, hu, hc, ht]
    simp only [persistMessage] at hadv ⊢
    simp only [hai] at hadv ⊢
    simp only [hdet, hfalse, hadv]
    simp [hphone]
  · simp [persistMessage]
  · simp [persistMessage, hai]
  · simp [persistMessage]
  · simp [persistMessage]
  · simp only [persistMessage] at hmem1 ⊢
    exact mem_updateConvRow _ _ _ (mem_updateConvRow _ _ _ hmem1 rfl) rfl

/-- Advisor fixture for the handoff scenario. -/
def handoffAdvisor : AdvisorRow := ⟨100, 1, "Ana", "+54911", true, 0⟩

/-- Store fixture for the handoff scenario: one active advisor, no
users or conversations yet. -/
def handoffDb : Db :=
  { users := [], conversations := [], messages := []
    advisors := [handoffAdvisor], agents := [], nextId := 1, clock := 0 }

/-- Payload fixture: first contact asking for a human advisor. -/
def handoffMsg : IncomingMessage :=
  [("business_id", .s "1"), ("phone", .s "+200"),
   ("message", .s "quiero hablar con un asesor")]

/-- The user row the router creates for the handoff fixture. -/
def handoffUser : UserRow := ⟨1, 1, "+200", "+200", none, true⟩

/-- The store after the user insert of the handoff fixture. -/
def handoffDb1 : Db := { handoffDb with users := [handoffUser], nextId := 2 }

/-- The conversation row the router creates for the handoff fixture. -/
def handoffConv : ConvRow :=
  ⟨2, 1, 1, "active", "assisted", "ai", none, none, none, 0, none, none⟩

/-- The store after the conversation insert of the handoff fixture. -/
def handoffDb2 : Db := { handoffDb1 with conversations := [handoffConv], nextId := 3 }

/-- C4 counterexample: routing the handoff message with a free advisor
switches `control_mode` to human but leaves `human_status` at `null` —
the claimed `human_status=active` does not happen. -/
theorem handoff_human_status_counterexample :
    (routeMessage exEnv handoffDb handoffMsg).db.conversations.map ConvRow.control_mode =
      ["human"] ∧
    (routeMessage exEnv handoffDb handoffMsg).db.conversations.map ConvRow.human_status =
      [none] ∧
    (none : Option String) ≠ some "active" := by
  refine ⟨by decide, by decide, by decide⟩

/-- Witness for C4 on the handoff fixture. -/
theorem handoff_assigns_and_notifies_witness :
    (extractRequiredUuid handoffMsg "business_id" = .ok 1 ∧
     getOrCreateUser handoffDb handoffDb 1 "+200" = .ok (handoffUser, handoffDb1) ∧
     getOrCreateActiveConversation exEnv.flowMode handoffDb1 handoffDb1 1 handoffUser.id =
       .ok (handoffConv, handoffDb2) ∧
     extractMessageText handoffMsg = .ok "quiero hablar con un asesor" ∧
     handoffConv.control_mode = "ai" ∧
     getActiveAdvisor
       (persistMessage handoffDb2 handoffConv "user" "inbound" "quiero hablar con un asesor").2
       handoffConv.business_id = some handoffAdvisor ∧
     strTrim handoffAdvisor.phone ≠ "") ∧
    (detectIntent "quiero hablar con un asesor" = "human_handoff" ∧
     ∃ conv2 db5 clientName clientPhone,
       handleUserMessage exEnv handoffDb "+200" handoffMsg =
         ⟨db5,
          [Effect.sendMessage "+200" "Un asesor continuará la conversación.",
           Effect.sendMessage (strTrim handoffAdvisor.phone)
             ("Nueva conversación en modo humano.\nCliente: " ++ clientName ++
              "\nTeléfono: " ++ clientPhone)], none⟩ ∧
       conv2.id = handoffConv.id ∧
       conv2.control_mode = "human" ∧
       conv2.assigned_advisor_id = some handoffAdvisor.id ∧
       conv2.human_status = handoffConv.human_status ∧
       conv2 ∈ db5.conversations) :=
  ⟨⟨rfl, rfl, rfl, rfl, rfl, rfl, by decide⟩,
   handoff_assigns_and_notifies exEnv handoffDb "+200" handoffMsg 1
     handoffUser handoffDb1 handoffConv handoffDb2 handoffAdvisor
     rfl rfl rfl rfl rfl rfl (by decide)⟩

/-- C5 (amended): a payload with no sender phone is rejected before any
mutation; a payload with no message text raises a validation error with
no Message row appended and no collaborator call — though the User and
Conversation resolve-or-create steps have already committed by then. -/
theorem validation_error_boundary (env : RouterEnv) (db : Db) (phone : String)
    (m1 m2 : IncomingMessage) (e : String)
    (h1 : extractSenderPhone m1 = none)
    (h2 : extractMessageText m2 = .error e) :
    routeMessage env db m1 =
      ⟨db, [], some "Incoming message is missing sender phone identifier."⟩ ∧
    (handleUserMessage env db phone m2).db.messages = db.messages ∧
    (handleUserMessage env db phone m2).effects = [] ∧
    (handleUserMessage env db phone m2).error ≠ none := by
  refine ⟨by simp only [routeMessage, h1], ?_⟩
  cases hb : extractRequiredUuid m2 "business_id" with
  | error e1 => simp [handleUserMessage, hb]
  | ok businessId =>
    cases hu : getOrCreateUser db db businessId phone with
    | error e1 => simp [handleUserMessage, hb, hu]
    | ok p =>
      obtain ⟨u, db1⟩ := p
      have hm1 := (getOrCreateUser_messages hu).1
      cases hcv : getOrCreateActiveConversation env.flowMode db1 db1 businessId u.id with
      | error e1 =>
        simp only [handleUserMessage, hb, hu, hcv]
        exact ⟨hm1, trivial, by simp⟩
      | ok q =>
        obtain ⟨c, db2⟩ := q
        have hm2 := getOrCreateConv_messages hcv
        simp only [handleUserMessage, hb, hu, hcv, h2]
        exact ⟨hm2.trans hm1, trivial, by simp⟩

/-- Payload fixture with a phone but no message text. -/
def noTextMsg : IncomingMessage := [("business_id", .s "1"), ("phone", .s "+200")]

/-- Payload fixture with no sender phone at all. -/
def noPhoneMsg : IncomingMessage := [("message", .s "hola")]

/-- C5 counterexample: the missing-text event is rejected, yet a User
row and a Conversation row were created for it — the mutation-free part
of the claim fails for missing message text. -/
theorem validation_partial_mutation_counterexample :
    (routeMessage exEnv emptyDb noTextMsg).error ≠ none ∧
    (routeMessage exEnv emptyDb noTextMsg).db.users.length = 1 ∧
    (routeMessage exEnv emptyDb noTextMsg).db.conversations.length = 1 ∧
    emptyDb.users.length = 0 ∧ emptyDb.conversations.length = 0 := by
  refine ⟨by decide, by decide, by decide, rfl, rfl⟩

/-- Witness for C5 on the two rejected payload fixtures. -/
theorem validation_error_boundary_witness :
    (extractSenderPhone noPhoneMsg = none ∧
     extractMessageText noTextMsg = .error "Incoming message is missing message content.") ∧
    (routeMessage exEnv emptyDb noPhoneMsg =
       ⟨emptyDb, [], some "Incoming message is missing sender phone identifier."⟩ ∧
     (handleUserMessage exEnv emptyDb "+200" noTextMsg).db.messages = emptyDb.messages ∧
     (handleUserMessage exEnv emptyDb "+200" noTextMsg).effects = [] ∧
     (handleUserMessage exEnv emptyDb "+200" noTextMsg).error ≠ none) :=
  ⟨⟨rfl, rfl⟩,
   validation_error_boundary exEnv emptyDb "+200" noPhoneMsg noTextMsg
     "Incoming message is missing message content." rfl rfl⟩

lemma pickMinBy_ne_none {α : Type} (key : α → Nat) (y : α) (ys : List α) :
    pickMinBy key (y :: ys) ≠ none := by
  simp only [pickMinBy]
  cases hm : pickMinBy key ys with
  | none => simp
  | some z => by_cases hle : key y ≤ key z <;> simp [hle]

lemma pickMinBy_mem {α : Type} (key : α → Nat) (l : List α) (x : α)
    (h : pickMinBy key l = some x) : x ∈ l := by
  induction l generalizing x with
  | nil => cases h
  | cons y ys ih =>
    simp only [pickMinBy] at h
    cases hm : pickMinBy key ys with
    | none =>
      rw [hm] at h
      simp only [] at h
      cases Option.some.inj h
      exact List.mem_cons_self y ys
    | some z =>
      rw [hm] at h
      simp only [] at h
      by_cases hle : key y ≤ key z
      · rw [if_pos hle] at h
        cases Option.some.inj h
        exact List.mem_cons_self y ys
      · rw [if_neg hle] at h
        cases Option.some.inj h
        exact List.mem_cons_of_mem y (ih _ hm)

lemma pickMinBy_le {α : Type} (key : α → Nat) (l : List α) (x : α)
    (h : pickMinBy key l = some x) : ∀ y ∈ l, key x ≤ key y := by
  induction l generalizing x with
  | nil => cases h
  | cons y ys ih =>
    intro w hw
    simp only [pickMinBy] at h
    cases hm : pickMinBy key ys with
    | none =>
      rw [hm] at h
      simp only [] at h
      cases Option.some.inj h
      cases ys with
      | nil =>
        cases List.mem_singleton.mp hw
        exact le_refl _
      | cons z zs => exact absurd hm (pickMinBy_ne_none key z zs)
    | some z =>
      rw [hm] at h
      simp only [] at h
      by_cases hle : key y ≤ key z
      · rw [if_pos hle] at h
        cases Option.some.inj h
        rcases List.mem_cons.mp hw with rfl | hmem
        · exact le_refl _
        · exact le_trans hle (ih _ hm w hmem)
      · rw [if_neg hle] at h
        cases Option.some.inj h
        rcases List.mem_cons.mp hw with rfl | hmem
        · exact le_of_not_le hle
        · exact ih _ hm w hmem

/-- C2 (amended): a bare `/cerrar` from a resolved agent with an active
human conversation reverts that conversation to `control_mode=ai`,
clears `human_status`, unassigns the agent (its `status` is left
untouched — it is NOT marked closed), and promotes exactly one waiting
conversation — the FIFO-oldest by `started_at` — to
`human_status=active` assigned to the same agent, sending that
conversation's context to the agent. -/
theorem agent_close_promotes_fifo (db : Db) (phone : String) (m : IncomingMessage)
    (agent : AgentRow) (conversation nextConv : ConvRow)
    (hag : resolveAgent db phone = some agent)
    (ht : extractMessageText m = .ok "/cerrar")
    (hconv : getActiveConversationForAgent db agent = some conversation)
    (hnext : getNextWaitingConversation
        (updateConvRow db (closeConversationRow conversation)) agent.business_id =
        some nextConv)
    (hemail : agent.email ≠ "") :
    handleAgentMessage db phone m =
      ⟨updateConvRow (updateConvRow db (closeConversationRow conversation))
         (activateConversationRow nextConv agent),
       [Effect.sendMessage (agentDestination agent agent.email)
          (contextMessage
            (updateConvRow (updateConvRow db (closeConversationRow conversation))
              (activateConversationRow nextConv agent))
            (activateConversationRow nextConv agent))], none⟩ ∧
    (closeConversationRow conversation).control_mode = "ai" ∧
    (closeConversationRow conversation).human_status = none ∧
    (closeConversationRow conversation).assigned_agent_id = none ∧
    (closeConversationRow conversation).status = conversation.status ∧
    (activateConversationRow nextConv agent).control_mode = "human" ∧
    (activateConversationRow nextConv agent).human_status = some "active" ∧
    (activateConversationRow nextConv agent).assigned_agent_id = some agent.id ∧
    isWaitingConvFor agent.business_id nextConv = true ∧
    (∀ w ∈ (updateConvRow db (closeConversationRow conversation)).conversations,
       isWaitingConvFor agent.business_id w = true → nextConv.started_at ≤ w.started_at) ∧
    (∀ w ∈ (updateConvRow db (closeConversationRow conversation)).conversations,
       isWaitingConvFor agent.business_id w = true → w.id ≠ nextConv.id →
       w ∈ (updateConvRow (updateConvRow db (closeConversationRow conversation))
             (activateConversationRow nextConv agent)).conversations) := by
  have hcmd : (String.mk ((pyStrip "/cerrar".toList).map pyLower) == "/cerrar") = true := by
    decide
  have hemailb : (agent.email == "") = false := beq_eq_false_iff_ne.mpr hemail
  refine ⟨?_, rfl, rfl, rfl, rfl, rfl, rfl, rfl, ?_, ?_, ?_⟩
  · simp only [handleAgentMessage, hag, ht, hcmd, hconv, hnext, hemailb]
    simp
  · simp only [getNextWaitingConversation] at hnext
    exact (List.mem_filter.mp (pickMinBy_mem _ _ _ hnext)).2
  · intro w hw hwait
    simp only [getNextWaitingConversation] at hnext
    exact pickMinBy_le _ _ _ hnext w (List.mem_filter.mpr ⟨hw, hwait⟩)
  · intro w hw hwait hne
    simp only [updateConvRow] at hw ⊢
    have himg : (fun r : ConvRow =>
        if r.id == (activateConversationRow nextConv agent).id
        then activateConversationRow nextConv agent else r) w = w := by
      have : (w.id == (activateConversationRow nextConv agent).id) = false := by
        simp only [activateConversationRow]
        exact beq_eq_false_iff_ne.mpr hne
      simp [this]
    have h2 := List.mem_map_of_mem (fun r : ConvRow =>
        if r.id == (activateConversationRow nextConv agent).id
        then activateConversationRow nextConv agent else r) hw
    rwa [himg] at h2

/-- Agent fixture for the close-and-promote scenario (contact address
`+agent`). -/
def closeAgent : AgentRow := ⟨5, 1, "Eve", "+agent", true, 0⟩

/-- The active human conversation of `closeAgent` (started first). -/
def closeActiveConv : ConvRow :=
  ⟨10, 1, 20, "active", "assisted", "human", some "active", none, some 5, 1, none, none⟩

/-- A waiting conversation started later (`started_at = 3`). -/
def closeWaitLate : ConvRow :=
  ⟨11, 1, 21, "active", "assisted", "human", some "waiting", none, none, 3, none, none⟩

/-- The FIFO-oldest waiting conversation (`started_at = 2`). -/
def closeWaitEarly : ConvRow :=
  ⟨12, 1, 22, "active", "assisted", "human", some "waiting", none, none, 2, none, none⟩

/-- Store fixture for the close-and-promote scenario. -/
def closeDb : Db :=
  { users := [⟨20, 1, "+u20", "+u20", some "Juan", true⟩,
              ⟨21, 1, "+u21", "+u21", none, true⟩,
              ⟨22, 1, "+u22", "+u22", some "Mia", true⟩]
    conversations := [closeActiveConv, closeWaitLate, closeWaitEarly]
    messages := [⟨12, 22, "user", "inbound", "necesito ayuda", 4⟩,
                 ⟨12, 22, "assistant", "outbound", "ok", 5⟩]
    advisors := [], agents := [closeAgent], nextId := 50, clock := 20 }

/-- The agent's bare close command payload. -/
def closeMsg : IncomingMessage := [("phone", .s "+agent"), ("message", .s "/cerrar")]

/-- C2 counterexample: after the close command every conversation —
including the one just "closed" — still has `status = "active"`;
`HumanSupportService._close_conversation` never marks status closed. -/
theorem close_command_status_counterexample :
    ((handleAgentMessage closeDb "+agent" closeMsg).db.conversations.map
       fun c => (c.id, c.status)) =
      [(10, "active"), (11, "active"), (12, "active")] ∧
    ("active" : String) ≠ "closed" := by
  refine ⟨by decide, by decide⟩

/-- Witness for C2 on the close-and-promote fixture: the FIFO-oldest
waiting conversation (id 12, started at 2) is the one promoted. -/
theorem agent_close_promotes_fifo_witness :
    (resolveAgent closeDb "+agent" = some closeAgent ∧
     extractMessageText closeMsg = .ok "/cerrar" ∧
     getActiveConversationForAgent closeDb closeAgent = some closeActiveConv ∧
     getNextWaitingConversation
       (updateConvRow closeDb (closeConversationRow closeActiveConv))
       closeAgent.business_id = some closeWaitEarly ∧
     closeAgent.email ≠ "") ∧
    (handleAgentMessage closeDb "+agent" closeMsg =
      ⟨updateConvRow (updateConvRow closeDb (closeConversationRow closeActiveConv))
         (activateConversationRow closeWaitEarly closeAgent),
       [Effect.sendMessage (agentDestination closeAgent closeAgent.email)
          (contextMessage
            (updateConvRow (updateConvRow closeDb (closeConversationRow closeActiveConv))
              (activateConversationRow closeWaitEarly closeAgent))
            (activateConversationRow closeWaitEarly closeAgent))], none⟩ ∧
     (closeConversationRow closeActiveConv).control_mode = "ai" ∧
     (closeConversationRow closeActiveConv).human_status = none ∧
     (closeConversationRow closeActiveConv).assigned_agent_id = none ∧
     (closeConversationRow closeActiveConv).status = closeActiveConv.status ∧
     (activateConversationRow closeWaitEarly closeAgent).control_mode = "human" ∧
     (activateConversationRow closeWaitEarly closeAgent).human_status = some "active" ∧
     (activateConversationRow closeWaitEarly closeAgent).assigned_agent_id =
       some closeAgent.id ∧
     isWaitingConvFor closeAgent.business_id closeWaitEarly = true ∧
     (∀ w ∈ (updateConvRow closeDb (closeConversationRow closeActiveConv)).conversations,
        isWaitingConvFor closeAgent.business_id w = true →
          closeWaitEarly.started_at ≤ w.started_at) ∧
     (∀ w ∈ (updateConvRow closeDb (closeConversationRow closeActiveConv)).conversations,
        isWaitingConvFor closeAgent.business_id w = true → w.id ≠ closeWaitEarly.id →
        w ∈ (updateConvRow (updateConvRow closeDb (closeConversationRow closeActiveConv))
              (activateConversationRow closeWaitEarly closeAgent)).conversations)) :=
  ⟨⟨rfl, rfl, rfl, rfl, by decide⟩,
   agent_close_promotes_fifo closeDb "+agent" closeMsg closeAgent
     closeActiveConv closeWaitEarly rfl rfl rfl rfl (by decide)⟩

end WhatsappBot
